import Mathlib

/-!
Verification of the pup-api-client request engine and event-stream supervisor.

The definitions below are a shallow embedding of `src/rest.ts` (class
`RestClient`) and of the WebSocket event-stream part of `PupRestClient`
(the `ws`-based variant). JavaScript `undefined` values are modelled as
`Option.none`, JavaScript relational comparison against `undefined`
(which is always false, via NaN) is modelled explicitly, and thrown
JavaScript errors are modelled as a record of the fields the code
inspects (`name`, `message`, `status`, `responseData`).
-/

namespace PupApiClient

/-- The fields of `RestClient` (`rest.ts`, lines 32-48).  The constructor
declares four required parameters; `requestTimeoutMs` and `retries` are
`Option Nat` because a JavaScript caller can invoke the constructor with
fewer arguments, leaving them `undefined` (`none`). -/
structure RestClientState where
  baseUrl : String
  token : String
  requestTimeoutMs : Option Nat
  retries : Option Nat
  deriving Repr, DecidableEq

/-- Models `new RestClient(baseUrl, token, requestTimeoutMs, retries)`
with all four declared arguments supplied. -/
def RestClient.new (baseUrl token : String) (requestTimeoutMs retries : Nat) :
    RestClientState :=
  { baseUrl := baseUrl, token := token,
    requestTimeoutMs := some requestTimeoutMs, retries := some retries }

/-- The `PupRestClient` constructor (`pup.ts`): `super(baseUrl, token)`
passes only two of the four declared base-class parameters, so at run
time `requestTimeoutMs` and `retries` are `undefined` (`none`). -/
def PupRestClient.mkState (baseUrl token : String) : RestClientState :=
  { baseUrl := baseUrl, token := token,
    requestTimeoutMs := none, retries := none }

/-- JavaScript `i <= x` where `x` may be `undefined`: comparison with
`undefined` coerces to NaN and is always false. -/
def jsLeNat (i : Nat) : Option Nat → Bool
  | some m => decide (i ≤ m)
  | none => false

/-- JavaScript `i >= x` where `x` may be `undefined` (always false). -/
def jsGeNat (i : Nat) : Option Nat → Bool
  | some m => decide (m ≤ i)
  | none => false

/-- A parsed JSON error body; the retry loop only ever inspects its
`error` property (`error.responseData?.error`), so only that field is
modelled.  `none` models an absent property (`undefined`). -/
structure ErrorBody where
  error : Option String
  deriving Repr, DecidableEq

/-- The fields of a caught JavaScript error that the `catch` block of
`RestClient.fetch` inspects: `name`, `message`, `status`,
`responseData`. -/
structure JsError where
  name : String
  message : String
  status : Option Nat
  responseData : Option ErrorBody
  deriving Repr, DecidableEq

/-- Optional chaining `error.responseData?.error`. -/
def JsError.responseDataError (e : JsError) : Option String :=
  match e.responseData with
  | some b => b.error
  | none => none

/-- JavaScript truthiness of an optional string (`undefined` and the
empty string are falsy). -/
def jsTruthyStr : Option String → Bool
  | some s => !(s == "")
  | none => false

/-- JavaScript truthiness of an optional number (`undefined` and `0`
are falsy). -/
def jsTruthyStatus : Option Nat → Bool
  | some s => !(s == 0)
  | none => false

/-- The observable outcome of one transport attempt inside the `try`
block of `RestClient.fetch`, as seen by the surrounding loop:
* `okParse d` — `response.ok` and `response.json()` parsed to `d`;
* `okNoParse` — `response.ok` but the body was empty or unparsable;
* `httpError statusText status errorData` — `!response.ok`; the code
  throws `new RestAPIError(...)` (whose runtime `name` is `"Error"`,
  since the class extends `Error` without assigning `this.name`);
* `abortError` — the timeout fired and the `fetch` rejected with a
  DOMException named `"AbortError"`;
* `networkError name msg` — `fetch` rejected for any other reason
  (for example a `TypeError` on connection refusal). -/
inductive AttemptResult (α : Type) where
  | okParse (d : α)
  | okNoParse
  | httpError (statusText : String) (status : Nat) (errorData : Option ErrorBody)
  | abortError
  | networkError (name : String) (msg : String)
  deriving Repr, DecidableEq

/-- Whether an attempt outcome is a failure (throws into the `catch`). -/
def AttemptResult.isFail {α : Type} : AttemptResult α → Bool
  | .okParse _ => false
  | .okNoParse => false
  | _ => true

/-- The caught error when the timeout fires: the DOMException produced
by `AbortController.abort` has name `"AbortError"`. -/
def abortJsError : JsError :=
  { name := "AbortError", message := "The signal has been aborted",
    status := none, responseData := none }

/-- Evaluate one attempt: a success returns the (optional) parsed body,
a failure produces the caught error value.  For `httpError` the caught
error is the thrown `RestAPIError`, whose run-time `name` is `"Error"`
because `class RestAPIError extends Error` never assigns `this.name`. -/
def evalAttempt {α : Type} : AttemptResult α → Except JsError (Option α)
  | .okParse d => .ok (some d)
  | .okNoParse => .ok none
  | .httpError st s ed =>
      .error { name := "Error", message := "Request failed: " ++ st,
               status := some s, responseData := ed }
  | .abortError => .error abortJsError
  | .networkError nm msg =>
      .error { name := nm, message := msg, status := none, responseData := none }

/-- Message of the generic fallback `Error` at the end of `fetch`. -/
def internalErrorMessage : String := "Internal Error - failed to complete any retry"

/-- Message thrown for an `AbortError` on the final attempt. -/
def connRefusedMsg : String := "Could not connect to server, connection refused."

/-- Message thrown when the final failure carries `responseData.error`. -/
def connDataMsg (e : String) : String :=
  "Could not connect to server, retries exhausted. Response data: \x27" ++ e ++ "\x27"

/-- Message thrown when the final failure carries a truthy `status`. -/
def connStatusMsg (s : Nat) : String :=
  "Could not connect to server, retries exhausted. Response status: \x27" ++ toString s ++ "\x27"

/-- How a call to `RestClient.fetch` can end:
* `envelope d` — returned an `ApiResponse` (`some` = parsed body, `none`
  = the empty envelope `{}`);
* `rethrown e` — the `error.name === "RestApiError"` branch rethrew the
  caught error unchanged;
* `raisedConn msg` — threw `RestAPIConnectionError(msg)`;
* `raisedInternal msg` — threw the generic `Error(msg)` after the loop. -/
inductive FetchOutcome (α : Type) where
  | envelope (d : Option α)
  | rethrown (e : JsError)
  | raisedConn (msg : String)
  | raisedInternal (msg : String)
  deriving Repr, DecidableEq

/-- Holds (`true`) exactly on `RestAPIConnectionError` outcomes. -/
def FetchOutcome.isConnError {α : Type} : FetchOutcome α → Bool
  | .raisedConn _ => true
  | _ => false

/-- The terminal branch of the `catch` block, executed when
`retries >= this.retries` (`rest.ts`, lines 207-225).  Returns `none`
when no branch throws, in which case control falls through to the
backoff delay and the loop re-checks its condition. -/
def terminalThrow {α : Type} (e : JsError) : Option (FetchOutcome α) :=
  if e.name = "RestApiError" then some (.rethrown e)
  else if e.name = "AbortError" then some (.raisedConn connRefusedMsg)
  else if jsTruthyStr e.responseDataError then
    some (.raisedConn (connDataMsg (e.responseDataError.getD "")))
  else if jsTruthyStatus e.status then
    some (.raisedConn (connStatusMsg (e.status.getD 0)))
  else none

/-- The result of a failed attempt once the `catch` block has run:
either a terminal throw, or fall-through to the retry delay. -/
def attemptTerminal {α : Type} (r : AttemptResult α) : Option (FetchOutcome α) :=
  match evalAttempt r with
  | .ok _ => none
  | .error e => terminalThrow e

/-- The `while (retries <= this.retries)` loop of `RestClient.fetch`
(`rest.ts`, lines 156-237).  `t i` is the outcome of the transport on
attempt number `i` (0-based).  Returns the outcome, the total number of
transport attempts performed, and the backoff delays inserted, in
order.  `fuel` is an upper bound on the remaining loop iterations so
the recursion is structural; the top-level entry point supplies enough
fuel that the `fuel = 0` branch (which returns the same loop-exit value
as a false loop condition) is never taken. -/
def fetchLoop {α : Type} (cfg : Option Nat) (delay0 : Nat) (t : Nat → AttemptResult α) :
    Nat → Nat → List Nat → FetchOutcome α × Nat × List Nat
  | 0, i, delays => (.raisedInternal internalErrorMessage, i, delays)
  | fuel + 1, i, delays =>
    if jsLeNat i cfg then
      match evalAttempt (t i) with
      | .ok d => (.envelope d, i + 1, delays)
      | .error e =>
        if jsGeNat i cfg then
          match terminalThrow e with
          | some out => (out, i + 1, delays)
          | none => fetchLoop cfg delay0 t fuel (i + 1) (delays ++ [delay0 * 2 ^ i])
        else
          fetchLoop cfg delay0 t fuel (i + 1) (delays ++ [delay0 * 2 ^ i])
    else
      (.raisedInternal internalErrorMessage, i, delays)

/-- Fuel sufficient for the whole loop: with `retries = some n` the loop
variable ranges over `0..n+1`, so `n + 2` guard checks happen; with
`retries = none` (`undefined`) the single guard check fails at once. -/
def fuelFor : Option Nat → Nat
  | none => 1
  | some n => n + 2

/-- `RestClient.fetch(path, options, initialRetryDelay)` as observed
through its retry behaviour: outcome, number of transport attempts, and
the list of inserted backoff delays. -/
def RestClient.fetchRun {α : Type} (s : RestClientState) (initialRetryDelay : Nat)
    (t : Nat → AttemptResult α) : FetchOutcome α × Nat × List Nat :=
  fetchLoop s.retries initialRetryDelay t (fuelFor s.retries) 0 []

/-- JavaScript object spread `{ ...base, ...extra }` observed as an
association list: a key present in `extra` overrides the same key in
`base`. -/
def jsSpread (base extra : List (String × String)) : List (String × String) :=
  base.filter (fun p => (extra.lookup p.1).isNone) ++ extra

/-- The header object built on every attempt of `RestClient.fetch`
(`rest.ts`, lines 161-164):
`{ "Authorization": "Bearer " + this.token, ...options.headers }` —
the caller-supplied headers are spread after the Authorization entry. -/
def buildHeaders (token : String) (callerHeaders : List (String × String)) :
    List (String × String) :=
  jsSpread [("Authorization", "Bearer " ++ token)] callerHeaders

/-! ## Event-stream supervisor

Shallow embedding of `PupRestClient.setupEventStream` and
`PupRestClient.close` in the `ws`-based variant of `pup.ts`.  The state
records the `aborted` flag, the number of live reconnect timers created
by `setInterval` in the close handler (the code never stores the handle
and never calls `clearInterval`, so the count only grows), and whether
a WebSocket is currently open. -/

structure StreamState where
  aborted : Bool
  intervals : Nat
  socketOpen : Bool
  deriving Repr, DecidableEq

/-- External occurrences driving the supervisor:
* `closeEvt` — the WebSocket fires its `close` event;
* `intervalFire` — one of the live `setInterval` reconnect timers fires;
* `msgEvt` — a message frame arrives (handled without state change);
* `callClose` — the user calls `close()`. -/
inductive StreamEv where
  | closeEvt
  | intervalFire
  | msgEvt
  | callClose
  deriving Repr, DecidableEq

/-- Externally visible side effects of a supervisor step. -/
inductive StreamAction where
  | openSocket
  | closeSocket
  deriving Repr, DecidableEq

/-- The local `connect()` closure of `setupEventStream`: opens a new
WebSocket only when not aborted. -/
def connect (s : StreamState) : StreamState × List StreamAction :=
  if s.aborted then (s, [])
  else ({ s with socketOpen := true }, [.openSocket])

/-- One supervisor step.
* On `closeEvt` the socket is no longer open, and if not aborted the
  handler runs `setInterval(() => connect(), 2500)`, registering one
  more repeating reconnect timer.
* On `intervalFire` the timer body runs `connect()`; the interval is
  never cleared, so the timer count is unchanged.
* On `msgEvt` the message handler only parses and emits; no state
  change and no connection action.
* On `callClose` (`close()`): set `aborted`, close the socket if one is
  open; the reconnect timers are not cleared. -/
def streamStep (s : StreamState) : StreamEv → StreamState × List StreamAction
  | .closeEvt =>
    let s1 := { s with socketOpen := false }
    if s1.aborted then (s1, [])
    else ({ s1 with intervals := s1.intervals + 1 }, [])
  | .intervalFire => connect s
  | .msgEvt => (s, [])
  | .callClose =>
    let s1 := { s with aborted := true }
    if s1.socketOpen then ({ s1 with socketOpen := false }, [.closeSocket])
    else (s1, [])

/-- Run a sequence of occurrences, accumulating the side effects. -/
def streamRun (s : StreamState) : List StreamEv → StreamState × List StreamAction
  | [] => (s, [])
  | e :: es =>
    let r1 := streamStep s e
    let r2 := streamRun r1.1 es
    (r2.1, r1.2 ++ r2.2)

/-- The state reached by `setupEventStream` on a fresh client: the
initial `connect()` call opens the first socket. -/
def initialStream : StreamState :=
  (connect { aborted := false, intervals := 0, socketOpen := false }).1

/-! ## Inbound frame handling

The `message` handler (both variants of `pup.ts`) decodes the frame,
runs `JSON.parse`, and calls `this.events.emit(data.t, data.d)`; a parse
failure is caught and ignored.  The `EventEmitter` is the external
`@pup/common/eventemitter` collaborator; per the spec (§4.3) `emit`
invokes every handler registered under the given event-type key, in
registration order, with the payload. -/

/-- An inbound WebSocket frame as seen after `JSON.parse`:
* `malformed raw` — `JSON.parse` (or a property access on a non-object
  result such as `null`) throws, and the handler drops the frame;
* `object t d` — a parsed object whose `t` and `d` properties may each
  be absent (`undefined`, modelled `none`). -/
inductive Frame (α : Type) where
  | malformed (raw : String)
  | object (t : Option String) (d : Option α)
  deriving Repr, DecidableEq

/-- Deliveries of one `emit` call: subscription table entries
`(eventType, handlerId)` whose key equals the emitted tag each receive
the payload, in order.  An `undefined` tag (`none`) matches no string
key. -/
def emitDeliveries {α : Type} (subs : List (String × Nat)) (t : Option String)
    (d : Option α) : List (Nat × Option α) :=
  (subs.filter (fun p => some p.1 == t)).map (fun p => (p.2, d))

/-- The deliveries produced when one frame arrives: a malformed frame
is swallowed by the `catch`; a parsed object is emitted as
`emit(data.t, data.d)`. -/
def wsMessageDeliveries {α : Type} (subs : List (String × Nat)) :
    Frame α → List (Nat × Option α)
  | .malformed _ => []
  | .object t d => emitDeliveries subs t d

/-! ## Helper lemmas -/

theorem evalAttempt_ok_not_fail {α : Type} (r : AttemptResult α) (v : Option α)
    (h : evalAttempt r = .ok v) : r.isFail = false := by
  cases r <;> simp [evalAttempt, AttemptResult.isFail] at h ⊢

theorem evalAttempt_error_fail {α : Type} (r : AttemptResult α) (e : JsError)
    (h : evalAttempt r = .error e) : r.isFail = true := by
  cases r <;> simp [evalAttempt, AttemptResult.isFail] at h ⊢

theorem attemptTerminal_of_error {α : Type} (r : AttemptResult α) (e : JsError)
    (h : evalAttempt r = .error e) : attemptTerminal r = terminalThrow e := by
  unfold attemptTerminal
  rw [h]

theorem terminalThrow_ne_internal {α : Type} (e : JsError) (m : String) :
    ¬ terminalThrow e = (some (FetchOutcome.raisedInternal m) : Option (FetchOutcome α)) := by
  unfold terminalThrow
  split_ifs <;> simp

theorem streamStep_aborted (s : StreamState) (e : StreamEv) (h : s.aborted = true) :
    (streamStep s e).1.aborted = true ∧ StreamAction.openSocket ∉ (streamStep s e).2 := by
  cases e with
  | closeEvt => simp [streamStep, h]
  | intervalFire => simp [streamStep, connect, h]
  | msgEvt => simp [streamStep, h]
  | callClose =>
    simp only [streamStep, h]
    split_ifs <;> simp

theorem streamRun_aborted (evs : List StreamEv) :
    ∀ s : StreamState, s.aborted = true →
      (streamRun s evs).1.aborted = true ∧
      StreamAction.openSocket ∉ (streamRun s evs).2 := by
  induction evs with
  | nil => intro s h; simpa [streamRun] using h
  | cons e es ih =>
    intro s h
    have h1 := streamStep_aborted s e h
    have h2 := ih (streamStep s e).1 h1.1
    simp only [streamRun, List.mem_append]
    exact ⟨h2.1, fun hc => hc.elim (fun hx => h1.2 hx) (fun hx => h2.2 hx)⟩

theorem streamStep_close_state (s : StreamState) :
    (streamStep s .callClose).1.aborted = true ∧
    (streamStep s .callClose).1.socketOpen = false := by
  simp only [streamStep]
  split_ifs with h <;> simp_all

theorem streamStep_close_noop (s : StreamState) (ha : s.aborted = true)
    (ho : s.socketOpen = false) : streamStep s .callClose = (s, []) := by
  cases s
  simp_all [streamStep]

theorem fetchLoop_abort {α : Type} (t : Nat → AttemptResult α) (n d : Nat)
    (ht : ∀ j, j ≤ n → t j = .abortError) :
    ∀ fuel i ds, i + fuel = n + 2 → i ≤ n →
      (fetchLoop (some n) d t fuel i ds).1 = .raisedConn connRefusedMsg ∧
      (fetchLoop (some n) d t fuel i ds).2.1 = n + 1 := by
  intro fuel
  induction fuel with
  | zero => intro i ds hf hi; omega
  | succ f ih =>
    intro i ds hf hi
    have hle : jsLeNat i (some n) = true := by simp [jsLeNat]; omega
    rw [fetchLoop, if_pos hle, ht i hi]
    simp only [evalAttempt]
    by_cases hni : n ≤ i
    · have hge : jsGeNat i (some n) = true := by simp [jsGeNat]; omega
      rw [if_pos hge]
      have hthrow : terminalThrow abortJsError =
          (some (FetchOutcome.raisedConn connRefusedMsg) : Option (FetchOutcome α)) := rfl
      rw [hthrow]
      refine ⟨rfl, ?_⟩
      show i + 1 = n + 1
      omega
    · have hge : jsGeNat i (some n) = false := by simp [jsGeNat]; omega
      rw [if_neg (by simp [hge])]
      exact ih (i + 1) (ds ++ [d * 2 ^ i]) (by omega) (by omega)

theorem fetchLoop_delays {α : Type} (cfg : Option Nat) (d : Nat) (t : Nat → AttemptResult α) :
    ∀ fuel i ds, ∃ m,
      (fetchLoop cfg d t fuel i ds).2.2 = ds ++ (List.range m).map (fun k => d * 2 ^ (i + k)) := by
  intro fuel
  induction fuel with
  | zero => intro i ds; exact ⟨0, by simp [fetchLoop]⟩
  | succ f ih =>
    intro i ds
    rw [fetchLoop]
    by_cases hle : jsLeNat i cfg = true
    · rw [if_pos hle]
      cases hA : evalAttempt (t i) with
      | ok v => exact ⟨0, by simp⟩
      | error e =>
        have hstep : ∃ m,
            (fetchLoop cfg d t f (i + 1) (ds ++ [d * 2 ^ i])).2.2 =
              ds ++ (List.range (m + 1)).map (fun k => d * 2 ^ (i + k)) := by
          obtain ⟨m, hm⟩ := ih (i + 1) (ds ++ [d * 2 ^ i])
          refine ⟨m, ?_⟩
          have hmap : (List.range (m + 1)).map (fun k => d * 2 ^ (i + k)) =
              d * 2 ^ i :: (List.range m).map (fun k => d * 2 ^ (i + 1 + k)) := by
            rw [List.range_succ_eq_map, List.map_cons, List.map_map]
            have h1 : ((fun k => d * 2 ^ (i + k)) ∘ Nat.succ) =
                (fun k => d * 2 ^ (i + 1 + k)) := by
              funext k
              have h2 : i + Nat.succ k = i + 1 + k := by omega
              simp [Function.comp, h2]
            rw [h1]
            norm_num
          rw [hm, hmap, List.append_assoc, List.singleton_append]
        dsimp only
        by_cases hge : jsGeNat i cfg = true
        · rw [if_pos hge]
          cases hT : (terminalThrow e : Option (FetchOutcome α)) with
          | some out => exact ⟨0, by simp⟩
          | none =>
            obtain ⟨m, hm⟩ := hstep
            exact ⟨m + 1, hm⟩
        · rw [if_neg (by simp [hge])]
          obtain ⟨m, hm⟩ := hstep
          exact ⟨m + 1, hm⟩
    · rw [if_neg (by simp [hle])]
      exact ⟨0, by simp⟩

theorem fetchLoop_empty_success {α : Type} (n d i0 : Nat) (t : Nat → AttemptResult α)
    (hi0 : i0 ≤ n) (hfail : ∀ j, j < i0 → (t j).isFail = true) (hok : t i0 = .okNoParse) :
    ∀ fuel i ds, i + fuel = n + 2 → i ≤ i0 →
      (fetchLoop (some n) d t fuel i ds).1 = .envelope none ∧
      (fetchLoop (some n) d t fuel i ds).2.1 = i0 + 1 := by
  intro fuel
  induction fuel with
  | zero => intro i ds hf hi; omega
  | succ f ih =>
    intro i ds hf hi
    have hle : jsLeNat i (some n) = true := by simp [jsLeNat]; omega
    rw [fetchLoop, if_pos hle]
    by_cases hii : i = i0
    · subst hii
      rw [hok]
      exact ⟨rfl, rfl⟩
    · have hlt : i < i0 := by omega
      cases hA : evalAttempt (t i) with
      | ok v =>
        have hnf := evalAttempt_ok_not_fail (t i) v hA
        simp [hfail i hlt] at hnf
      | error e =>
        dsimp only
        have hge : jsGeNat i (some n) = false := by simp [jsGeNat]; omega
        rw [if_neg (by simp [hge])]
        exact ih (i + 1) (ds ++ [d * 2 ^ i]) (by omega) (by omega)

theorem fetchLoop_internal_iff {α : Type} (n d : Nat) (t : Nat → AttemptResult α) :
    ∀ fuel i ds, i + fuel = n + 2 →
      ((fetchLoop (some n) d t fuel i ds).1 =
          FetchOutcome.raisedInternal internalErrorMessage ↔
        (∀ j, i ≤ j → j ≤ n → (t j).isFail = true) ∧
        (i ≤ n → attemptTerminal (t n) = none)) := by
  intro fuel
  induction fuel with
  | zero =>
    intro i ds hf
    constructor
    · intro _
      exact ⟨fun j hij hjn => by omega, fun hin => by omega⟩
    · intro _
      rfl
  | succ f ih =>
    intro i ds hf
    by_cases hin : i ≤ n
    · have hle : jsLeNat i (some n) = true := by simp [jsLeNat]; omega
      rw [fetchLoop, if_pos hle]
      cases hA : evalAttempt (t i) with
      | ok v =>
        dsimp only
        constructor
        · intro h
          exact absurd h (by simp)
        · rintro ⟨h1, h2⟩
          have hfl := h1 i le_rfl hin
          rw [evalAttempt_ok_not_fail (t i) v hA] at hfl
          cases hfl
      | error e =>
        dsimp only
        by_cases hni : n ≤ i
        · have hieq : i = n := le_antisymm hin hni
          subst hieq
          have hge : jsGeNat i (some i) = true := by simp [jsGeNat]
          rw [if_pos hge]
          cases hT : (terminalThrow e : Option (FetchOutcome α)) with
          | some out =>
            dsimp only
            constructor
            · intro h
              rw [h] at hT
              exact absurd hT (terminalThrow_ne_internal e internalErrorMessage)
            · rintro ⟨h1, h2⟩
              have h3 := h2 le_rfl
              rw [attemptTerminal_of_error (t i) e hA] at h3
              rw [hT] at h3
              cases h3
          | none =>
            dsimp only
            rw [ih (i + 1) (ds ++ [d * 2 ^ i]) (by omega)]
            constructor
            · rintro ⟨-, -⟩
              refine ⟨fun j hij hji => ?_, fun _ => ?_⟩
              · have hje : j = i := by omega
                subst hje
                exact evalAttempt_error_fail (t j) e hA
              · rw [attemptTerminal_of_error (t i) e hA]
                exact hT
            · rintro ⟨h1, h2⟩
              exact ⟨fun j hj1 hj2 => by omega, fun h => by omega⟩
        · have hge : jsGeNat i (some n) = false := by simp [jsGeNat]; omega
          rw [if_neg (by simp [hge])]
          rw [ih (i + 1) (ds ++ [d * 2 ^ i]) (by omega)]
          constructor
          · rintro ⟨h1, h2⟩
            refine ⟨fun j hij hjn => ?_, fun _ => h2 (by omega)⟩
            by_cases hji : j = i
            · subst hji
              exact evalAttempt_error_fail (t j) e hA
            · exact h1 j (by omega) hjn
          · rintro ⟨h1, h2⟩
            exact ⟨fun j hij hjn => h1 j (by omega) hjn, fun _ => h2 (by omega)⟩
    · have hle : jsLeNat i (some n) = false := by simp [jsLeNat]; omega
      rw [fetchLoop, if_neg (by simp [hle])]
      constructor
      · intro _
        exact ⟨fun j hij hjn => by omega, fun h => by omega⟩
      · intro _
        rfl

/-! ## Claim theorems -/

/-- C1 counterexample: the claim that an always-failing transport makes
`fetch` raise `RestAPIConnectionError` when no response was parsed is
false as stated.  With `maxRetries = 0` and a transport failing with a
plain network `TypeError` (no status, no response data), the single
attempt is made but no `RestAPIConnectionError` is raised — the call
ends with the generic internal `Error` instead. -/
theorem c1_always_fail_counterexample :
    ((RestClient.fetchRun (RestClient.new "http://host" "tok" 1000 0) 200
        (fun _ => (AttemptResult.networkError "TypeError" "connection reset" :
          AttemptResult Nat))).1).isConnError = false ∧
    (RestClient.fetchRun (RestClient.new "http://host" "tok" 1000 0) 200
        (fun _ => (AttemptResult.networkError "TypeError" "connection reset" :
          AttemptResult Nat))).2.1 = 1 := by
  decide

/-- C1 (amended): for every `maxRetries = n`, a transport whose every
attempt fails with a timeout/abort (`AbortError`) makes exactly `n + 1`
transport attempts and raises `RestAPIConnectionError` after the last
one. -/
theorem c1_abort_exhaustion {α : Type} (baseUrl token : String) (ms n d : Nat)
    (t : Nat → AttemptResult α) (ht : ∀ j, j ≤ n → t j = .abortError) :
    (RestClient.fetchRun (RestClient.new baseUrl token ms n) d t).1 =
      .raisedConn connRefusedMsg ∧
    (RestClient.fetchRun (RestClient.new baseUrl token ms n) d t).2.1 = n + 1 :=
  fetchLoop_abort t n d ht (n + 2) 0 [] (by omega) (by omega)

/-- Witness for C1: with `maxRetries = 2` and a transport aborting on
every attempt, three attempts are made and a connection error raised. -/
theorem c1_abort_exhaustion_witness :
    (RestClient.fetchRun (RestClient.new "http://host" "tok" 5000 2) 200
        (fun _ => (AttemptResult.abortError : AttemptResult Nat))).1 =
      .raisedConn connRefusedMsg ∧
    (RestClient.fetchRun (RestClient.new "http://host" "tok" 5000 2) 200
        (fun _ => (AttemptResult.abortError : AttemptResult Nat))).2.1 = 2 + 1 :=
  c1_abort_exhaustion "http://host" "tok" 5000 2 200
    (fun _ => (AttemptResult.abortError : AttemptResult Nat)) (fun _ _ => rfl)

/-- C2 counterexample: the generic internal-failure error is reachable.
With `maxRetries = 1` and both attempts failing as a plain network
`TypeError`, the call raises the generic
`Error("Internal Error - failed to complete any retry")`. -/
theorem c2_internal_reachable_counterexample :
    (RestClient.fetchRun (RestClient.new "http://host" "tok" 5000 1) 200
        (fun _ => (AttemptResult.networkError "TypeError" "error sending request" :
          AttemptResult Nat))).1 = .raisedInternal internalErrorMessage := by
  decide

/-- C2 (amended): a `fetch` call raises the generic internal-failure
error exactly when every attempt fails and the failure captured on the
final attempt satisfies none of the terminal branches of the catch
block — its name is neither `"RestApiError"` nor `"AbortError"` and it
carries neither a truthy `responseData.error` nor a truthy `status`.
In every other case the call resolves with an envelope or raises a
typed (or rethrown) error. -/
theorem c2_internal_characterisation {α : Type} (baseUrl token : String)
    (ms n d : Nat) (t : Nat → AttemptResult α) :
    ((RestClient.fetchRun (RestClient.new baseUrl token ms n) d t).1 =
        FetchOutcome.raisedInternal internalErrorMessage ↔
      (∀ j, j ≤ n → (t j).isFail = true) ∧ attemptTerminal (t n) = none) := by
  have h := fetchLoop_internal_iff n d t (n + 2) 0 [] (by omega)
  constructor
  · intro hx
    obtain ⟨h1, h2⟩ := h.mp hx
    exact ⟨fun j hj => h1 j (Nat.zero_le j) hj, h2 (Nat.zero_le n)⟩
  · rintro ⟨h1, h2⟩
    exact h.mpr ⟨fun j _ hj => h1 j hj, fun _ => h2⟩

/-- C3 (code bug, behaviour at the failing input): with `maxRetries = 0`
and the transport answering 404 with body `{"error": "not found"}`, the
final `RestAPIError` is not surfaced verbatim; the check
`error.name === "RestApiError"` never matches (the class is spelled
`RestAPIError` and its instances have runtime name `"Error"`), so the
HTTP-level failure is wrapped into a `RestAPIConnectionError`. -/
theorem c3_http_error_wrapped :
    (RestClient.fetchRun (RestClient.new "http://host" "tok" 5000 0) 200
        (fun _ => (AttemptResult.httpError "Not Found" 404 (some { error := some "not found" }) :
          AttemptResult Nat))).1 = .raisedConn (connDataMsg "not found") := by
  decide

/-- C4: the `PupRestClient` constructor calls `super(baseUrl, token)`
with only two of the four declared base-class arguments, so
`requestTimeoutMs` and `retries` are `undefined`, the loop condition
`retries <= this.retries` is false on entry, and every call through the
facade performs zero transport attempts and raises the generic
`Error("Internal Error - failed to complete any retry")`. -/
theorem c4_facade_zero_attempts {α : Type} (baseUrl token : String) (d : Nat)
    (t : Nat → AttemptResult α) :
    (PupRestClient.mkState baseUrl token).requestTimeoutMs = none ∧
    (PupRestClient.mkState baseUrl token).retries = none ∧
    jsLeNat 0 (PupRestClient.mkState baseUrl token).retries = false ∧
    RestClient.fetchRun (PupRestClient.mkState baseUrl token) d t =
      (FetchOutcome.raisedInternal internalErrorMessage, 0, []) :=
  ⟨rfl, rfl, rfl, rfl⟩

/-- C5 (code bug, behaviour at the failing input): the close handler
runs `setInterval(() => connect(), 2500)` without storing or clearing
the handle.  Two close events before any reconnect leave two pending
repeating reconnect timers, not one single-shot attempt; and after a
single close event, the one interval keeps firing — two timer fires
open two sockets while the timer count stays at one. -/
theorem c5_reconnect_timers_accumulate :
    (streamRun initialStream [StreamEv.closeEvt, StreamEv.closeEvt]).1.intervals = 2 ∧
    (streamRun initialStream
        [StreamEv.closeEvt, StreamEv.intervalFire, StreamEv.intervalFire]).2 =
      [StreamAction.openSocket, StreamAction.openSocket] ∧
    (streamRun initialStream
        [StreamEv.closeEvt, StreamEv.intervalFire, StreamEv.intervalFire]).1.intervals = 1 := by
  decide

/-- C6 counterexample: a caller-supplied `Authorization` header is not
overwritten by the engine; the spread `...options.headers` comes after
the engine entry, so the caller value `"X"` is what the transport
sees, not `"Bearer tok"`. -/
theorem c6_caller_auth_wins_counterexample :
    (buildHeaders "tok" [("Authorization", "X")]).lookup "Authorization" = some "X" ∧
    (buildHeaders "tok" [("Authorization", "X")]).lookup "Authorization" ≠
      some ("Bearer " ++ "tok") := by
  decide

/-- C6 (amended): the headers sent on each attempt carry an
`Authorization` value equal to the caller-supplied one when present,
and `Bearer <current token>` only when the caller supplied none —
caller headers, not the engine, take precedence on conflict. -/
theorem c6_authorization_value (token : String) (caller : List (String × String)) :
    (buildHeaders token caller).lookup "Authorization" =
      some ((caller.lookup "Authorization").getD ("Bearer " ++ token)) := by
  unfold buildHeaders jsSpread
  cases h : caller.lookup "Authorization" with
  | none => simp [List.filter, h, List.lookup]
  | some v => simp [List.filter, h, List.lookup]

/-- C7: the list of backoff delays inserted by a `fetch` call is
exactly `initialRetryDelay * 2 ^ k` for `k = 0, 1, ...`: the delay
between the end of attempt `i` and the start of attempt `i + 1` is
`initialRetryDelay * 2 ^ i`, with no jitter. -/
theorem c7_exponential_backoff {α : Type} (baseUrl token : String) (ms n d : Nat)
    (t : Nat → AttemptResult α) :
    (RestClient.fetchRun (RestClient.new baseUrl token ms n) d t).2.2 =
      (List.range (RestClient.fetchRun (RestClient.new baseUrl token ms n) d t).2.2.length).map
        (fun k => d * 2 ^ k) := by
  obtain ⟨m, hm⟩ := fetchLoop_delays (some n) d t (n + 2) 0 []
  have hm2 : (RestClient.fetchRun (RestClient.new baseUrl token ms n) d t).2.2 =
      (List.range m).map (fun k => d * 2 ^ k) := by
    simpa using hm
  rw [hm2]
  simp

/-- C9: when the loop reaches an attempt whose response is a success
with an empty or unparsable body, `fetch` returns the empty success
envelope `{}` (no data, no error) rather than raising. -/
theorem c9_empty_success_envelope {α : Type} (baseUrl token : String) (ms n d i : Nat)
    (t : Nat → AttemptResult α) (hi : i ≤ n)
    (hfail : ∀ j, j < i → (t j).isFail = true) (hok : t i = .okNoParse) :
    (RestClient.fetchRun (RestClient.new baseUrl token ms n) d t).1 = .envelope none ∧
    (RestClient.fetchRun (RestClient.new baseUrl token ms n) d t).2.1 = i + 1 :=
  fetchLoop_empty_success n d i t hi hfail hok (n + 2) 0 [] (by omega) (by omega)

/-- Witness for C9: a first attempt answering 2xx with an unparsable
body returns the empty envelope after one attempt. -/
theorem c9_empty_success_envelope_witness :
    (RestClient.fetchRun (RestClient.new "http://host" "tok" 5000 0) 200
        (fun _ => (AttemptResult.okNoParse : AttemptResult Nat))).1 = .envelope none ∧
    (RestClient.fetchRun (RestClient.new "http://host" "tok" 5000 0) 200
        (fun _ => (AttemptResult.okNoParse : AttemptResult Nat))).2.1 = 0 + 1 :=
  c9_empty_success_envelope "http://host" "tok" 5000 0 200 0
    (fun _ => (AttemptResult.okNoParse : AttemptResult Nat))
    (Nat.le_refl 0) (fun j hj => absurd hj (Nat.not_lt_zero j)) rfl

/-- C10 counterexample: a JSON frame with an event-type but a missing
payload field is not dropped — `emit(data.t, data.d)` runs with
`data.d === undefined` and a subscriber to `"log"` receives the
event with an undefined payload. -/
theorem c10_missing_payload_delivered :
    wsMessageDeliveries [("log", 0)] (Frame.object (some "log") (none : Option Nat)) =
      [(0, none)] ∧
    wsMessageDeliveries [("log", 0)] (Frame.object (some "log") (none : Option Nat)) ≠ [] := by
  decide

/-- C10 (amended): frames that fail to parse as JSON are silently
dropped, and a parsed frame with no event-type field delivers to no
subscriber; but a parsed frame with an event-type is emitted even when
its payload field is missing. -/
theorem c10_dropped_frames {α : Type} (subs : List (String × Nat)) (raw : String)
    (d : Option α) :
    wsMessageDeliveries subs (Frame.malformed raw : Frame α) = [] ∧
    wsMessageDeliveries subs (Frame.object none d) = [] := by
  refine ⟨rfl, ?_⟩
  simp [wsMessageDeliveries, emitDeliveries]

/-- C8: once `close()` has been called, the aborted state is terminal —
whatever events arrive afterwards (close events, pending reconnect
timer fires, messages, further `close()` calls), no new WebSocket is
ever opened and the state stays aborted; and a second `close()` on the
already-closed client is a no-op rather than an error. -/
theorem c8_close_is_terminal (s : StreamState) (evs : List StreamEv) :
    (streamRun (streamStep s StreamEv.callClose).1 evs).1.aborted = true ∧
    StreamAction.openSocket ∉ (streamRun (streamStep s StreamEv.callClose).1 evs).2 ∧
    streamStep (streamStep s StreamEv.callClose).1 StreamEv.callClose =
      ((streamStep s StreamEv.callClose).1, []) := by
  have hc := streamStep_close_state s
  have hr := streamRun_aborted evs (streamStep s StreamEv.callClose).1 hc.1
  exact ⟨hr.1, hr.2, streamStep_close_noop (streamStep s StreamEv.callClose).1 hc.1 hc.2⟩

end PupApiClient
